import Mathlib

/-!
Verification development for the Med-chatbot clinical monitoring and
retrieval-orchestration core.  The definitions below are a shallow
embedding of the Python source:

* `clinical_monitoring_prompts.py` — `QuestionTracker`,
  `validate_risk_level`, `validate_answer_type`;
* `rag_engine.py` — `RAGEngine._assess_medical_risk` and
  `RAGEngine._fallback_risk_assessment`;
* `report_upload_engine.py` — `PatientVectorStoreManager.patient_has_reports`
  and `ReportUploadHandler.get_upload_status`;
* `backend_api.py` — the monitoring / chat FastAPI endpoints
  (`start_monitoring_session`, `chat_query`, `get_next_monitoring_question`,
  `submit_monitoring_answer`, `get_monitoring_assessment`).

External effects (the Groq text-generation call, the FAISS retrievers,
the patient database, the filesystem) are passed in explicitly as data:
the generator output becomes a parameter, the filesystem a list of
directory entries, the patient store a list of patient identifiers, and
the chat history an explicit list threaded through each operation.
Python strings are modelled by Lean `String`; `str.upper` / `str.lower`
by the structurally recursive `pyUpper` / `pyLower` below (exact for the
ASCII texts involved here).
-/

/-- Model of Python `str.upper` (exact on the ASCII strings handled by
this system), written by structural recursion over the character list so
that the kernel can evaluate it. -/
def pyUpper (s : String) : String :=
  ⟨s.data.map Char.toUpper⟩

/-- Model of Python `str.lower` (exact on ASCII), structurally recursive. -/
def pyLower (s : String) : String :=
  ⟨s.data.map Char.toLower⟩

/-- Whether `pat` is a prefix of `l`, as a structurally recursive Bool. -/
def listStartsWith : List Char → List Char → Bool
  | [], _ => true
  | _ :: _, [] => false
  | a :: as, b :: bs => a == b && listStartsWith as bs

/-- Whether `pat` occurs contiguously inside the list. -/
def listOccurs (pat : List Char) : List Char → Bool
  | [] => listStartsWith pat []
  | c :: rest => listStartsWith pat (c :: rest) || listOccurs pat rest

/-- Python substring test `pat in s`: `pat` occurs contiguously in `s`. -/
def strContains (s pat : String) : Bool :=
  listOccurs pat.data s.data

/-- Whitespace stripping as performed by Python `int(str)` before
parsing: drop leading and trailing whitespace characters. -/
def pyTrim (s : String) : List Char :=
  ((s.data.dropWhile Char.isWhitespace).reverse.dropWhile
    Char.isWhitespace).reverse

/-- A single entry of the modelled filesystem: a path, whether it is a
directory, and (for directories) the names of the files inside it.
`os.path.exists` / `os.path.isdir` are lookups into this list. -/
structure FSEntry where
  path : String
  isDir : Bool
  files : List String
deriving DecidableEq, Repr

/-- The filesystem model: the set of paths known to `os.path`. -/
abbrev FS := List FSEntry

/-- Model of `os.path.exists`. -/
def pathExists (fs : FS) (p : String) : Bool :=
  fs.any (fun e => e.path == p)

/-- Model of `os.path.isdir`. -/
def isDirAt (fs : FS) (p : String) : Bool :=
  fs.any (fun e => e.path == p && e.isDir)

/-- Embeds `PatientVectorStoreManager.get_patient_store_path`
(report_upload_engine.py line 191): `os.path.join("vector store",
"patient_" + patient_id)`. -/
def get_patient_store_path (patient_id : String) : String :=
  "vector store/patient_" ++ patient_id

/-- Embeds `PatientVectorStoreManager.patient_has_reports`
(report_upload_engine.py lines 195-198):
`os.path.exists(path) and os.path.isdir(path)`.  Note that the source
checks only existence of the directory, not whether it holds anything. -/
def patient_has_reports (fs : FS) (patient_id : String) : Bool :=
  pathExists fs (get_patient_store_path patient_id) &&
    isDirAt fs (get_patient_store_path patient_id)

/-- Modelled from the spec: the §4.1 ReportGate contract, "returns true
only if a private vector index exists AND IS NON-EMPTY for patient_id".
This definition follows the spec words (existence plus non-emptiness) so
it can be compared with `patient_has_reports`, which is translated from
the source. -/
def canProceedSpec (fs : FS) (patient_id : String) : Bool :=
  fs.any (fun e =>
    e.path == get_patient_store_path patient_id && e.isDir && !e.files.isEmpty)

/-- Result of `ReportUploadHandler.get_upload_status`
(report_upload_engine.py lines 397-411). -/
structure UploadStatus where
  patient_id : String
  has_medical_report : Bool
  status : String
  can_proceed_with_monitoring : Bool
deriving DecidableEq, Repr

/-- Embeds `ReportUploadHandler.get_upload_status` (report_upload_engine.py
lines 397-411): wraps `patient_has_reports` into a status dictionary;
`can_proceed_with_monitoring` is exactly the `patient_has_reports` flag. -/
def get_upload_status (fs : FS) (patient_id : String) : UploadStatus :=
  let has_reports := patient_has_reports fs patient_id
  { patient_id := patient_id
    has_medical_report := has_reports
    status := if has_reports then "Ready for monitoring"
              else "Awaiting medical report upload"
    can_proceed_with_monitoring := has_reports }

/-- Embeds `QuestionTracker` (clinical_monitoring_prompts.py lines 160-189):
`asked_questions` is the ordered list of asked question texts,
`negative_responses` the per-question NO counter (a Python dict,
modelled as an association list in insertion order). -/
structure QuestionTracker where
  asked_questions : List String
  negative_responses : List (String × Nat)
deriving DecidableEq, Repr

/-- Embeds `QuestionTracker.__init__`: both containers start empty. -/
def QuestionTracker.init : QuestionTracker :=
  { asked_questions := [], negative_responses := [] }

/-- Embeds `QuestionTracker.add_question` (lines 167-169): unconditionally
appends the question text to `asked_questions`.  The source performs no
duplicate check here. -/
def add_question (t : QuestionTracker) (question : String) : QuestionTracker :=
  { t with asked_questions := t.asked_questions ++ [question] }

/-- Python `dict.get(k, 0)` over the association-list model. -/
def countGetD (d : List (String × Nat)) (k : String) : Nat :=
  match d.find? (fun p => p.1 == k) with
  | some p => p.2
  | none => 0

/-- Python `d[k] = d.get(k, 0) + 1` over the association-list model. -/
def countIncr (d : List (String × Nat)) (k : String) : List (String × Nat) :=
  if d.any (fun p => p.1 == k) then
    d.map (fun p => if p.1 == k then (p.1, p.2 + 1) else p)
  else
    d ++ [(k, 1)]

/-- Embeds `QuestionTracker.mark_negative_response` (lines 171-173). -/
def mark_negative_response (t : QuestionTracker) (question : String) :
    QuestionTracker :=
  { t with negative_responses := countIncr t.negative_responses question }

/-- Embeds `QuestionTracker.has_asked` (lines 175-177): list membership. -/
def has_asked (t : QuestionTracker) (question : String) : Bool :=
  t.asked_questions.contains question

/-- Embeds `QuestionTracker.can_ask_more` (lines 179-181):
`len(self.asked_questions) < max_questions`. -/
def can_ask_more (t : QuestionTracker) (max_questions : Nat) : Bool :=
  t.asked_questions.length < max_questions

/-- Embeds `validate_risk_level` (clinical_monitoring_prompts.py lines 252-255):
`risk_level.upper() in ["LOW", "MEDIUM", "HIGH"]`. -/
def validate_risk_level (risk_level : String) : Bool :=
  ["LOW", "MEDIUM", "HIGH"].contains (pyUpper risk_level)

/-- Embeds `validate_answer_type` (clinical_monitoring_prompts.py lines 258-261):
`answer_type.upper() in ["YES_NO", "SCALE_0_10", "SHORT_TEXT"]`. -/
def validate_answer_type (answer_type : String) : Bool :=
  ["YES_NO", "SCALE_0_10", "SHORT_TEXT"].contains (pyUpper answer_type)

/-- The structured risk result assembled by `RAGEngine._assess_medical_risk`
and `RAGEngine._fallback_risk_assessment` (rag_engine.py): a risk level,
a list of reason bullets and an action string. -/
structure RiskResult where
  risk_level : String
  reason : List String
  action : String
deriving DecidableEq, Repr

/-- The HIGH-risk keyword list of `RAGEngine._fallback_risk_assessment`
(rag_engine.py lines 327-331). -/
def high_risk_keywords : List String :=
  ["seizure", "confusion", "lost consciousness", "sudden weakness",
   "vision loss", "numbness", "severe headache", "speech difficulty",
   "severe dizziness", "can\x27t walk", "paralysis", "stroke", "bleeding"]

/-- The MEDIUM-risk keyword list of `RAGEngine._fallback_risk_assessment`
(rag_engine.py lines 333-336). -/
def medium_risk_keywords : List String :=
  ["headache", "mild dizziness", "numbness", "weakness",
   "persistent", "worsening", "medication", "dizzy"]

/-- The local variable `combined_text` of
`RAGEngine._fallback_risk_assessment` (rag_engine.py line 325): the
lowercased concatenation `question + " " + answer + " " + context`. -/
def fallbackCombined (question answer context : String) : String :=
  pyLower (question ++ " " ++ answer ++ " " ++ context)

/-- Embeds `RAGEngine._fallback_risk_assessment` (rag_engine.py lines 321-358):
scans the HIGH keyword list first over `combined_text`, then the MEDIUM
list, and returns the canned result of the first tier that matches, LOW
otherwise.  The Python loop returns on the first matching keyword; since
every match in a tier yields the same canned result, `List.any` is
equivalent. -/
def fallback_risk_assessment (question answer context : String) : RiskResult :=
  if high_risk_keywords.any
      (fun k => strContains (fallbackCombined question answer context) k) then
    { risk_level := "HIGH"
      reason := ["Neurological symptoms detected",
                 "Requires urgent medical attention"]
      action := "Visit your doctor or nearest hospital immediately. Contact a family member or caregiver." }
  else if medium_risk_keywords.any
      (fun k => strContains (fallbackCombined question answer context) k) then
    { risk_level := "MEDIUM"
      reason := ["Moderate neurological symptoms present",
                 "Monitoring recommended"]
      action := "Continue taking your prescribed medicines and monitor symptoms closely. Inform your doctor if symptoms worsen." }
  else
    { risk_level := "LOW"
      reason := ["Stable condition", "No acute symptoms reported"]
      action := "You are doing well. Continue your normal routine and prescribed medications." }

/-- Outcome of the external generator call inside
`RAGEngine._assess_medical_risk` (rag_engine.py lines 203-258), seen
from inside its `try` block:
* `noApiKey` — `GROQ_API_KEY` unset (lines 205-210), an early `return`;
* `failure` — any exception in the block (HTTP error,
  `response.raise_for_status()`, `json.loads` failure), which the
  `except` clause turns into the keyword fallback (lines 256-258);
* `parsed` — `json.loads` succeeded; the three fields are the values of
  the `risk_level` / `reason` / `action` keys, `none` when the key is
  absent (Python `dict.get` with a default).  The source wraps a bare
  string `reason` into a singleton list (line 252), so `reason` is
  modelled already in list form. -/
inductive RiskGenOutcome where
  | noApiKey
  | failure
  | parsed (risk_level : Option String) (reason : Option (List String))
      (action : Option String)
deriving DecidableEq, Repr

/-- Return value of `RAGEngine._assess_medical_risk`: the missing-key
branch returns a two-field dictionary (risk_level / risk_reason), every
other branch the three-field structured result. -/
inductive AssessOutcome where
  | noKey (risk_level risk_reason : String)
  | assessed (r : RiskResult)
deriving DecidableEq, Repr

/-- Embeds `RAGEngine._assess_medical_risk` (rag_engine.py lines 174-258).
On a successful parse the source normalizes `risk_level` with
`.upper()` (line 246) and returns it WITHOUT checking membership in
LOW/MEDIUM/HIGH; only an exception reaches the keyword fallback. -/
def assess_medical_risk (question answer context : String)
    (gen : RiskGenOutcome) : AssessOutcome :=
  match gen with
  | .noApiKey => .noKey "UNKNOWN" "API key not configured"
  | .failure => .assessed (fallback_risk_assessment question answer context)
  | .parsed rl reason action =>
      .assessed
        { risk_level := pyUpper (rl.getD "UNKNOWN")
          reason := reason.getD ["Unable to assess"]
          action := action.getD "Continue monitoring" }

/-- The `risk_level` field of an `_assess_medical_risk` return value. -/
def assessRiskLevel : AssessOutcome → String
  | .noKey rl _ => rl
  | .assessed r => r.risk_level

/-- A parsed monitoring-assessment JSON object as used by
`get_monitoring_assessment` (backend_api.py lines 998-1024): the
`risk_level`, `reason` and `action` keys of the generator response. -/
structure AssessmentJson where
  risk_level : String
  reason : List String
  action : String
deriving DecidableEq, Repr

/-- Generator output for the monitoring-assessment endpoint:
either text that `json.loads` rejects, or a parsed object carrying the
three expected keys. -/
inductive AssessmentGenOutput where
  | notJson (raw : String)
  | json (a : AssessmentJson)
deriving DecidableEq, Repr

/-- One row of the patient chat history written by
`patient_manager.add_to_patient_history` /
`patient_manager.save_chat_message`. -/
structure HistoryRow where
  patient_id : String
  question : String
  answer : String
  risk_level : String
  risk_reason : String
  source_documents : List String
deriving DecidableEq, Repr

/-- Rendering of `json.dumps(session["responses"])` used when the
assessment is persisted (backend_api.py line 1013); the exact textual
format is irrelevant to every claim, only that the responses dictionary
is serialized into the history row. -/
def dumpsResponses (d : List (String × String)) : String :=
  String.intercalate ", " (d.map (fun p => p.1 ++ ": " ++ p.2))

/-- A clinical monitoring session as stored in `MONITORING_SESSIONS`
(backend_api.py lines 793-800): the `responses` dictionary maps a
question text to the submitted answer; `assessment` and `completed_at`
appear only once `get_monitoring_assessment` has run. -/
structure MonitoringSession where
  patient_id : String
  max_questions : Nat
  question_tracker : QuestionTracker
  responses : List (String × String)
  created_at : String
  status : String
  assessment : Option AssessmentJson
  completed_at : Option String
deriving DecidableEq, Repr

/-- Python dict assignment `d[k] = v` over the association-list model:
overwrite in place if the key exists, append otherwise. -/
def dictInsert (d : List (String × String)) (k v : String) :
    List (String × String) :=
  if d.any (fun p => p.1 == k) then
    d.map (fun p => if p.1 == k then (p.1, v) else p)
  else
    d ++ [(k, v)]

/-- Result of `POST /api/monitoring/session/start`
(backend_api.py lines 757-813). -/
inductive StartSessionResult where
  | notFound404
  | blockedNoReport
  | created (session_id : String) (s : MonitoringSession)
deriving DecidableEq, Repr

/-- Embeds `start_monitoring_session` (backend_api.py lines 757-813).  Order of
checks as in the source: first `pm.get_patient` (404 if absent), then
the report gate via `get_upload_status` (400 with the NO_MEDICAL_REPORT
payload), then creation of a fresh active session.  The patient store is
modelled as the list of registered patient identifiers.  Note
`request.max_questions or 6` (line 795): Python `or` replaces both
`None` and `0` by the default 6. -/
def start_monitoring_session (patients : List String) (fs : FS)
    (patient_id : String) (max_questions : Option Nat)
    (session_id now : String) : StartSessionResult :=
  if !(patients.contains patient_id) then
    .notFound404
  else if !(get_upload_status fs patient_id).can_proceed_with_monitoring then
    .blockedNoReport
  else
    .created session_id
      { patient_id := patient_id
        max_questions := match max_questions with
                         | none => 6
                         | some 0 => 6
                         | some n => n
        question_tracker := QuestionTracker.init
        responses := []
        created_at := now
        status := "active"
        assessment := none
        completed_at := none }

/-- Result of `POST /api/chat/query` (backend_api.py lines 334-389),
collapsed to the control-flow outcome relevant to the report gate:
`proceededToRetrieval` marks the branch that constructs the `RAGEngine`
(and hence performs retrieval). -/
inductive ChatQueryResult where
  | notFound404
  | blocked400 (detail : String)
  | proceededToRetrieval
deriving DecidableEq, Repr

/-- Embeds `chat_query` (backend_api.py lines 334-389): patient lookup first
(404 on a missing patient), then the report gate (HTTP 400 with the
blocking message), and only past both does the handler build the
`RAGEngine` and retrieve. -/
def chat_query (patients : List String) (fs : FS) (patient_id : String) :
    ChatQueryResult :=
  if !(patients.contains patient_id) then
    .notFound404
  else if !(get_upload_status fs patient_id).can_proceed_with_monitoring then
    .blocked400 "Medical reports are required before chatbot interaction can begin. Please upload your medical reports first."
  else
    .proceededToRetrieval

/-- Result of `POST /api/monitoring/session/{id}/next-question`
(backend_api.py lines 816-899). -/
inductive NextQuestionResult where
  | error400 (detail : String)
  | completeMarker
  | error500 (detail : String)
deriving DecidableEq, Repr

/-- Embeds `get_next_monitoring_question` (backend_api.py lines 816-899) on an
existing session.  The source checks, in order: session active (400
otherwise, line 826), `tracker.can_ask_more` (on failure the terminal
marker with `question: None`, lines 830-836).  Past the guard the
handler builds the generation prompt with
`current_question_number=tracker.question_count + 1` (line 858), but
`QuestionTracker` defines no `question_count` attribute
(clinical_monitoring_prompts.py lines 160-189), so this access raises
`AttributeError`, the blanket `except Exception` converts it to an HTTP
500, and `add_question` (line 885) is never reached: the state is
returned unchanged in every branch. -/
def get_next_monitoring_question (s : MonitoringSession) :
    MonitoringSession × NextQuestionResult :=
  if s.status != "active" then
    (s, .error400 "Session is not active")
  else if !(can_ask_more s.question_tracker s.max_questions) then
    (s, .completeMarker)
  else
    (s, .error500 "QuestionTracker object has no attribute question_count")

/-- Request body of `POST /api/monitoring/session/{id}/submit-answer`
(backend_api.py lines 147-154). -/
structure AnswerRequest where
  patient_id : String
  session_id : String
  question : String
  answer : String
  answer_type : String
deriving DecidableEq, Repr

/-- Result of `submit_monitoring_answer`. -/
inductive SubmitResult where
  | error400 (detail : String)
  | success
deriving DecidableEq, Repr

/-- Digits-to-number accumulator for `pyInt`. -/
def digitsToNat (l : List Char) : Nat :=
  l.foldl (fun acc c => acc * 10 + (c.toNat - 48)) 0

/-- Model of Python `int(str)` on ASCII decimal literals (as produced by
the API callers): strip surrounding whitespace, accept an optional
leading sign followed by at least one digit, reject everything else
(`ValueError` becomes `none`).  Underscore digit separators and
non-ASCII digits accepted by CPython are outside this model. -/
def pyInt (s : String) : Option Int :=
  let t := pyTrim s
  let signed : Bool × List Char :=
    match t with
    | '-' :: rest => (true, rest)
    | '+' :: rest => (false, rest)
    | _ => (false, t)
  if signed.2.isEmpty || !(signed.2.all Char.isDigit) then
    none
  else if signed.1 then
    some (-(digitsToNat signed.2 : Int))
  else
    some (digitsToNat signed.2 : Int)

/-- Embeds `submit_monitoring_answer` (backend_api.py lines 902-947) on an
existing session.  Checks in source order: session active (400),
`validate_answer_type` (400), then the two content checks, each gated
by a CASE-SENSITIVE comparison of `request.answer_type` with the
uppercase spelling: `answer_type == "YES_NO"` requires
`answer.upper()` in YES/NO (line 919), `answer_type == "SCALE_0_10"`
requires `int(answer)` in `[0, 10]` (lines 922-928).  Only then is the
answer stored under the question (line 931) and, for a literal
`YES_NO` answer uppercasing to NO, the negative counter bumped
(lines 934-935). -/
def submit_monitoring_answer (s : MonitoringSession) (req : AnswerRequest) :
    MonitoringSession × SubmitResult :=
  if s.status != "active" then
    (s, .error400 "Session is not active")
  else if !(validate_answer_type req.answer_type) then
    (s, .error400 "Invalid answer type")
  else if req.answer_type == "YES_NO" &&
      !(["YES", "NO"].contains (pyUpper req.answer)) then
    (s, .error400 "YES_NO answer must be YES or NO")
  else if req.answer_type == "SCALE_0_10" &&
      !(match pyInt req.answer with
        | some v => decide (0 ≤ v) && decide (v ≤ 10)
        | none => false) then
    (s, .error400 "SCALE answer must be 0-10")
  else
    let s1 := { s with responses := dictInsert s.responses req.question req.answer }
    let s2 :=
      if req.answer_type == "YES_NO" && pyUpper req.answer == "NO" then
        { s1 with question_tracker :=
            mark_negative_response s1.question_tracker req.question }
      else s1
    (s2, .success)

/-- Result of `POST /api/monitoring/session/{id}/assessment`.  The `ok`
constructor is the shape a 200 response would take; in the source as
written no run reaches it (see `get_monitoring_assessment`). -/
inductive AssessmentResponse where
  | error500 (detail : String)
  | ok (risk_level : String) (reason : List String) (action : String)
      (total_questions_asked : Nat) (timestamp : String)
deriving DecidableEq, Repr

/-- Embeds `get_monitoring_assessment` (backend_api.py lines 950-1032) on an
existing session.  The source performs NO session-status check and NO
minimum-question check.  Steps, in order: generator call; `json.loads`
plus `validate_risk_level` inside a `try` whose `except` raises HTTP 500
"Failed to generate valid assessment" (lines 997-1002, state
unchanged); then the in-place session mutations `status = "complete"`,
`assessment`, `completed_at` (lines 1005-1007); then
`pm.add_to_patient_history` (lines 1010-1017), modelled as appending a
row; finally the `MonitoringAssessmentResponse` construction reads
`session["question_tracker"].question_count` (line 1025), an attribute
`QuestionTracker` does not define, so the construction raises
`AttributeError` and the handler answers 500 — AFTER the mutations and
the history write have taken effect on the global session store. -/
def get_monitoring_assessment (s : MonitoringSession)
    (hist : List HistoryRow) (gen : AssessmentGenOutput) (now : String) :
    MonitoringSession × List HistoryRow × AssessmentResponse :=
  match gen with
  | .notJson _ =>
      (s, hist, .error500 "Failed to generate valid assessment")
  | .json a =>
      if !(validate_risk_level a.risk_level) then
        (s, hist, .error500 "Failed to generate valid assessment")
      else
        let s1 := { s with status := "complete"
                           assessment := some a
                           completed_at := some now }
        let hist1 := hist ++
          [{ patient_id := s.patient_id
             question := "Clinical Monitoring Session"
             answer := dumpsResponses s.responses
             risk_level := a.risk_level
             risk_reason := String.intercalate " / " a.reason
             source_documents := [] }]
        (s1, hist1,
          .error500 "QuestionTracker object has no attribute question_count")

/-- A fresh active monitoring session for patient P1, as created by
`start_monitoring_session` with the default budget: no questions asked,
no responses, no assessment. -/
def sampleActiveSession : MonitoringSession :=
  { patient_id := "P1"
    max_questions := 6
    question_tracker := QuestionTracker.init
    responses := []
    created_at := "t0"
    status := "active"
    assessment := none
    completed_at := none }

/-- An active session started with `max_questions = 3` whose tracker
already holds three questions: the question budget is exhausted. -/
def sampleMaxedSession : MonitoringSession :=
  { patient_id := "P1"
    max_questions := 3
    question_tracker := { asked_questions := ["Q1", "Q2", "Q3"], negative_responses := [] }
    responses := [("Q1", "YES"), ("Q2", "NO"), ("Q3", "2")]
    created_at := "t0"
    status := "active"
    assessment := none
    completed_at := none }

/-- A well-formed generator assessment (risk level LOW). -/
def sampleAssessment : AssessmentJson :=
  { risk_level := "LOW"
    reason := ["Stable condition"]
    action := "Continue your normal routine" }

/-- A second, different well-formed generator assessment (risk level HIGH). -/
def sampleAssessmentB : AssessmentJson :=
  { risk_level := "HIGH"
    reason := ["New symptoms reported"]
    action := "Visit your doctor immediately" }

/-- A session already marked COMPLETE, holding `sampleAssessment` and a
completion timestamp t1. -/
def sampleCompleteSession : MonitoringSession :=
  { patient_id := "P1"
    max_questions := 6
    question_tracker := { asked_questions := ["Q1", "Q2", "Q3"], negative_responses := [] }
    responses := [("Q1", "YES")]
    created_at := "t0"
    status := "complete"
    assessment := some sampleAssessment
    completed_at := some "t1" }

/-- A submit-answer request declaring the lowercase type `scale_0_10`
with the out-of-range value 15. -/
def sampleScaleRequestLower : AnswerRequest :=
  { patient_id := "P1"
    session_id := "S1"
    question := "How severe is your pain from 0 to 10?"
    answer := "15"
    answer_type := "scale_0_10" }

/-- The same request with the canonical uppercase type `SCALE_0_10`. -/
def sampleScaleRequestUpper : AnswerRequest :=
  { patient_id := "P1"
    session_id := "S1"
    question := "How severe is your pain from 0 to 10?"
    answer := "15"
    answer_type := "SCALE_0_10" }

/-- A filesystem holding an existing but EMPTY private index directory
for patient P1. -/
def emptyIndexFS : FS :=
  [{ path := "vector store/patient_P1", isDir := true, files := [] }]

/-- Helper: the keyword fallback only ever classifies LOW, MEDIUM or
HIGH, whatever the input text. -/
theorem fallback_risk_level_mem (q a c : String) :
    (fallback_risk_assessment q a c).risk_level ∈
      (["LOW", "MEDIUM", "HIGH"] : List String) := by
  unfold fallback_risk_assessment
  split
  · simp
  · split <;> simp

/-- Helper: the keyword fallback always returns one of the three fixed
action templates. -/
theorem fallback_action_mem (q a c : String) :
    (fallback_risk_assessment q a c).action ∈
      (["Visit your doctor or nearest hospital immediately. Contact a family member or caregiver.",
        "Continue taking your prescribed medicines and monitor symptoms closely. Inform your doctor if symptoms worsen.",
        "You are doing well. Continue your normal routine and prescribed medications."] : List String) := by
  unfold fallback_risk_assessment
  split
  · simp
  · split <;> simp

/-- Helper: `get_next_monitoring_question` never changes the session in
the source as written (the guarded branches return early and the
question-recording line is cut off by the missing `question_count`
attribute). -/
theorem next_question_state_unchanged (s : MonitoringSession) :
    (get_next_monitoring_question s).1 = s := by
  unfold get_next_monitoring_question
  split
  · rfl
  · split <;> rfl

/-- Helper: every run of `submit_monitoring_answer` either leaves the
session untouched or reports success. -/
theorem submit_state_or_success (s : MonitoringSession) (req : AnswerRequest) :
    (submit_monitoring_answer s req).1 = s ∨
    (submit_monitoring_answer s req).2 = .success := by
  unfold submit_monitoring_answer
  split
  · exact Or.inl rfl
  · split
    · exact Or.inl rfl
    · split
      · exact Or.inl rfl
      · split
        · exact Or.inl rfl
        · exact Or.inr rfl

/-- C1, counterexample: the generator-parsing path of
`_assess_medical_risk` does NOT normalize invalid values to a validation
failure — a parsed `risk_level` of "critical" is uppercased and returned
verbatim as "CRITICAL", a value outside LOW/MEDIUM/HIGH, with no
fallback to the keyword heuristic. -/
theorem C1_counterexample :
    assessRiskLevel (assess_medical_risk "q" "a" "c"
        (.parsed (some "critical") none none)) = "CRITICAL"
    ∧ "CRITICAL" ∉ (["LOW", "MEDIUM", "HIGH"] : List String)
    ∧ assessRiskLevel (assess_medical_risk "q" "a" "c"
        (.parsed (some "") none none)) = "" := by
  refine ⟨by decide, by decide, by decide⟩

/-- C1, amended: the parsing path of `_assess_medical_risk` returns the
uppercased generator value without membership validation; only an
exception (HTTP or JSON-parse failure) reaches the keyword fallback,
which does classify into exactly LOW/MEDIUM/HIGH; `validate_risk_level`
accepts exactly the case-insensitive spellings of those three values but
is applied only in the monitoring endpoint, not on this path. -/
theorem C1_risk_vocabulary (q a c rl : String)
    (reason : Option (List String)) (act : Option String) :
    assessRiskLevel (assess_medical_risk q a c (.parsed (some rl) reason act))
        = pyUpper rl
    ∧ assess_medical_risk q a c .failure
        = .assessed (fallback_risk_assessment q a c)
    ∧ (fallback_risk_assessment q a c).risk_level ∈
        (["LOW", "MEDIUM", "HIGH"] : List String)
    ∧ (validate_risk_level rl = true ↔
        pyUpper rl ∈ (["LOW", "MEDIUM", "HIGH"] : List String)) := by
  refine ⟨rfl, rfl, fallback_risk_level_mem q a c, ?_⟩
  simp [validate_risk_level]

/-- C5, evaluation at the failing input: recording the same question
text twice in one session succeeds silently — `add_question` appends the
exact duplicate even though `has_asked` already reports the question as
asked, and no DuplicateQuestion failure exists anywhere in the source. -/
theorem C5_duplicate_recorded :
    (add_question (add_question QuestionTracker.init "Do you have headaches?")
        "Do you have headaches?").asked_questions
      = ["Do you have headaches?", "Do you have headaches?"]
    ∧ has_asked (add_question QuestionTracker.init "Do you have headaches?")
        "Do you have headaches?" = true := by
  refine ⟨by decide, by decide⟩

/-- C8, counterexample: an existing but EMPTY private index directory
satisfies the report gate — `patient_has_reports` (and hence
`can_proceed_with_monitoring`) is true although the spec-side predicate
requiring a non-empty index is false. -/
theorem C8_counterexample :
    patient_has_reports emptyIndexFS "P1" = true
    ∧ canProceedSpec emptyIndexFS "P1" = false
    ∧ (get_upload_status emptyIndexFS "P1").can_proceed_with_monitoring = true := by
  refine ⟨by decide, by decide, by decide⟩

/-- C8, amended: the gate tests only that the directory
`vector store/patient_<id>` exists — its truth value is independent of
the directory contents, so an empty index passes — and evaluating it has
no side effects (it is a pure function of the filesystem state). -/
theorem C8_gate_existence_only (fs : FS) (pid : String) :
    ((get_upload_status fs pid).can_proceed_with_monitoring
        = patient_has_reports fs pid)
    ∧ (patient_has_reports fs pid = true ↔
        ∃ e ∈ fs, e.path = get_patient_store_path pid ∧ e.isDir = true)
    ∧ ∀ g : FSEntry → List String,
        patient_has_reports (fs.map (fun e => { e with files := g e })) pid
          = patient_has_reports fs pid := by
  refine ⟨rfl, ?_, ?_⟩
  · simp only [patient_has_reports, pathExists, isDirAt, Bool.and_eq_true,
      List.any_eq_true, beq_iff_eq]
    constructor
    · rintro ⟨-, e, he, hpath, hdir⟩
      exact ⟨e, he, hpath, hdir⟩
    · rintro ⟨e, he, hpath, hdir⟩
      exact ⟨⟨e, he, hpath⟩, e, he, hpath, hdir⟩
  · intro g
    simp only [patient_has_reports, pathExists, isDirAt, List.any_map,
      Function.comp_def]

/-- C2: when the report gate fails for a patient, both `start_session`
and the freeform `chat_query` return the blocking 400 response (the
NO_MEDICAL_REPORT payload for start, the blocking message for chat) and
never reach retrieval or session creation; when the patient does not
exist at all, both return the distinct 404 instead. -/
theorem C2_report_gate (patients : List String) (fs : FS) (pid : String)
    (mq : Option Nat) (sid now : String)
    (hgate : (get_upload_status fs pid).can_proceed_with_monitoring = false) :
    (patients.contains pid = true →
      chat_query patients fs pid = .blocked400 "Medical reports are required before chatbot interaction can begin. Please upload your medical reports first."
      ∧ start_monitoring_session patients fs pid mq sid now = .blockedNoReport)
    ∧ (patients.contains pid = false →
      chat_query patients fs pid = .notFound404
      ∧ start_monitoring_session patients fs pid mq sid now = .notFound404)
    ∧ chat_query patients fs pid ≠ .proceededToRetrieval
    ∧ ∀ sid2 s, start_monitoring_session patients fs pid mq sid now ≠ .created sid2 s := by
  cases h : patients.contains pid with
  | false =>
      have hm : pid ∉ patients := by simpa using h
      have hchat : chat_query patients fs pid = .notFound404 := by
        simp [chat_query, hm]
      have hstart : start_monitoring_session patients fs pid mq sid now
          = .notFound404 := by
        simp [start_monitoring_session, hm]
      refine ⟨fun ht => absurd (by simpa using ht) hm,
        fun _ => ⟨hchat, hstart⟩,
        by simp [hchat], fun sid2 s => by simp [hstart]⟩
  | true =>
      have hm : pid ∈ patients := by simpa using h
      have hchat : chat_query patients fs pid
          = .blocked400 "Medical reports are required before chatbot interaction can begin. Please upload your medical reports first." := by
        simp [chat_query, hm, hgate]
      have hstart : start_monitoring_session patients fs pid mq sid now
          = .blockedNoReport := by
        simp [start_monitoring_session, hm, hgate]
      refine ⟨fun _ => ⟨hchat, hstart⟩,
        fun hf => absurd hm (by simpa using hf),
        by simp [hchat], fun sid2 s => by simp [hstart]⟩

/-- C2, witness: patient P1 is registered but has no private index on
the empty filesystem, so chat and session start are blocked with 400;
patient P2 is not registered at all, so both return 404. -/
theorem C2_report_gate_witness :
    chat_query ["P1"] [] "P1" = .blocked400 "Medical reports are required before chatbot interaction can begin. Please upload your medical reports first."
    ∧ start_monitoring_session ["P1"] [] "P1" none "S1" "t0" = .blockedNoReport
    ∧ chat_query ["P1"] [] "P2" = .notFound404
    ∧ start_monitoring_session ["P1"] [] "P2" none "S1" "t0" = .notFound404 := by
  have h1 := C2_report_gate ["P1"] [] "P1" none "S1" "t0" (by decide)
  have h2 := C2_report_gate ["P1"] [] "P2" none "S1" "t0" (by decide)
  exact ⟨(h1.1 (by decide)).1, (h1.1 (by decide)).2,
    (h2.2.1 (by decide)).1, (h2.2.1 (by decide)).2⟩

/-- C3, counterexample: a session with ZERO questions asked is assessed
anyway — the endpoint marks it complete, stores the assessment and
appends the audit row, so the claimed precondition `asked_count ≥ 3` for
a successful assessment does not exist in the code. -/
theorem C3_counterexample :
    (get_monitoring_assessment sampleActiveSession [] (.json sampleAssessment) "t1").1.status = "complete"
    ∧ (get_monitoring_assessment sampleActiveSession [] (.json sampleAssessment) "t1").1.assessment = some sampleAssessment
    ∧ (get_monitoring_assessment sampleActiveSession [] (.json sampleAssessment) "t1").2.1.length = 1
    ∧ sampleActiveSession.question_tracker.asked_questions.length = 0 := by
  refine ⟨by decide, by decide, by decide, by decide⟩

/-- C3, amended: `get_monitoring_assessment` performs no
minimum-question check — whenever the generator output is JSON whose
risk level passes `validate_risk_level`, the session is marked COMPLETE,
the assessment stored and an audit row appended, for ANY asked-question
count including zero; the tracker itself is untouched, so only the upper
bound `asked_count ≤ max_questions` survives the call. -/
theorem C3_no_minimum_check (s : MonitoringSession) (hist : List HistoryRow)
    (a : AssessmentJson) (now : String)
    (hv : validate_risk_level a.risk_level = true) :
    (get_monitoring_assessment s hist (.json a) now).1.status = "complete"
    ∧ (get_monitoring_assessment s hist (.json a) now).1.assessment = some a
    ∧ (get_monitoring_assessment s hist (.json a) now).1.question_tracker = s.question_tracker
    ∧ (get_monitoring_assessment s hist (.json a) now).2.1.length = hist.length + 1 := by
  simp [get_monitoring_assessment, hv]

/-- C3, witness for the amended statement: the fresh zero-question
session is completed and one audit row appended. -/
theorem C3_no_minimum_check_witness :
    (get_monitoring_assessment sampleActiveSession [] (.json sampleAssessment) "t2").1.status = "complete"
    ∧ (get_monitoring_assessment sampleActiveSession [] (.json sampleAssessment) "t2").2.1.length = ([] : List HistoryRow).length + 1 := by
  have h := C3_no_minimum_check sampleActiveSession [] sampleAssessment "t2" (by decide)
  exact ⟨h.1, h.2.2.2⟩

/-- C4, counterexample: when the generator returns non-JSON text for the
assessment request, `get_monitoring_assessment` surfaces an HTTP 500
error to the caller instead of producing a structured result via the
keyword fallback — the monitoring endpoint has no fallback path. -/
theorem C4_counterexample :
    get_monitoring_assessment sampleActiveSession []
        (.notJson "The patient seems fine overall") "t1"
      = (sampleActiveSession, [], .error500 "Failed to generate valid assessment") := rfl

/-- C4, amended: the keyword fallback exists only on the freeform chat
path — `_assess_medical_risk` degrades to it on any exception, and the
fallback is a total function that always yields one of LOW/MEDIUM/HIGH
with one of the three fixed action templates (it never raises); the
monitoring `get_assessment` endpoint, by contrast, returns a 500 error
on non-JSON generator output with the session state unchanged. -/
theorem C4_fallback_scope (q a c raw now : String) (s : MonitoringSession)
    (hist : List HistoryRow) :
    assess_medical_risk q a c .failure
        = .assessed (fallback_risk_assessment q a c)
    ∧ (fallback_risk_assessment q a c).risk_level ∈
        (["LOW", "MEDIUM", "HIGH"] : List String)
    ∧ (fallback_risk_assessment q a c).action ∈
        (["Visit your doctor or nearest hospital immediately. Contact a family member or caregiver.",
          "Continue taking your prescribed medicines and monitor symptoms closely. Inform your doctor if symptoms worsen.",
          "You are doing well. Continue your normal routine and prescribed medications."] : List String)
    ∧ get_monitoring_assessment s hist (.notJson raw) now
        = (s, hist, .error500 "Failed to generate valid assessment") :=
  ⟨rfl, fallback_risk_level_mem q a c, fallback_action_mem q a c, rfl⟩

/-- C6: `can_ask_more` is exactly the predicate
`asked_count < max_questions`; once the count has reached the budget, an
active session's next-question call returns the terminal complete marker
with the state unchanged (so a session started with `max_questions = 3`
never yields a 4th question); recording a question under the
`can_ask_more` guard keeps `asked_count ≤ max_questions`, and
next-question itself preserves that bound. -/
theorem C6_question_budget (s : MonitoringSession) (t : QuestionTracker)
    (m : Nat) (q : String) :
    (can_ask_more t m = true ↔ t.asked_questions.length < m)
    ∧ (s.status = "active" →
        s.max_questions ≤ s.question_tracker.asked_questions.length →
        get_next_monitoring_question s = (s, .completeMarker))
    ∧ (can_ask_more t m = true →
        (add_question t q).asked_questions.length ≤ m)
    ∧ (s.question_tracker.asked_questions.length ≤ s.max_questions →
        (get_next_monitoring_question s).1.question_tracker.asked_questions.length
          ≤ s.max_questions) := by
  refine ⟨by simp [can_ask_more], ?_, ?_, ?_⟩
  · intro hact hmax
    simp [get_next_monitoring_question, hact, can_ask_more, Nat.not_lt.mpr hmax]
  · intro h
    have hlt : t.asked_questions.length < m := by
      simpa [can_ask_more] using h
    simp only [add_question, List.length_append, List.length_cons,
      List.length_nil]
    omega
  · intro h
    rw [next_question_state_unchanged]
    exact h

/-- C6, witness: the session with budget 3 and three asked questions
gets the terminal complete marker, and recording a third question under
the guard stays within the budget. -/
theorem C6_question_budget_witness :
    get_next_monitoring_question sampleMaxedSession
      = (sampleMaxedSession, .completeMarker)
    ∧ (add_question { asked_questions := ["Q1", "Q2"], negative_responses := [] }
        "Q3").asked_questions.length ≤ 3 := by
  have h := C6_question_budget sampleMaxedSession
    { asked_questions := ["Q1", "Q2"], negative_responses := [] } 3 "Q3"
  exact ⟨h.2.1 rfl (by decide), h.2.2.1 (by decide)⟩

/-- C7, counterexample: an answer declared with the case-variant type
`scale_0_10` passes `validate_answer_type` (which normalizes case) but
skips the content check entirely, so the out-of-range answer 15 is
ACCEPTED; only the exact uppercase spelling `SCALE_0_10` triggers the
range validation that rejects 15. -/
theorem C7_counterexample :
    (submit_monitoring_answer sampleActiveSession sampleScaleRequestLower).2 = .success
    ∧ validate_answer_type "scale_0_10" = true
    ∧ (submit_monitoring_answer sampleActiveSession sampleScaleRequestUpper).2
        = .error400 "SCALE answer must be 0-10" := by
  refine ⟨by decide, by decide, by decide⟩

/-- C7, amended: for an active session, an answer whose declared type is
spelled exactly SCALE_0_10 is accepted iff it parses as an integer in
[0, 10] (so 15 is rejected), one spelled exactly YES_NO is accepted iff
it uppercases to YES or NO, and SHORT_TEXT is unconstrained; but the
content checks compare the type case-sensitively, so case-variant
spellings such as scale_0_10 pass the type check and skip content
validation. -/
theorem C7_answer_validation (s : MonitoringSession) (req : AnswerRequest)
    (hact : s.status = "active") :
    (req.answer_type = "SCALE_0_10" →
      ((submit_monitoring_answer s req).2 = .success ↔
        ∃ v : Int, pyInt req.answer = some v ∧ 0 ≤ v ∧ v ≤ 10))
    ∧ (req.answer_type = "YES_NO" →
      ((submit_monitoring_answer s req).2 = .success ↔
        pyUpper req.answer ∈ (["YES", "NO"] : List String)))
    ∧ (req.answer_type = "SHORT_TEXT" →
      (submit_monitoring_answer s req).2 = .success) := by
  have hb : (s.status != "active") = false := by
    simp [hact]
  refine ⟨?_, ?_, ?_⟩
  · intro ht
    cases hp : pyInt req.answer with
    | none =>
        simp [submit_monitoring_answer, hb, ht, hp,
          show validate_answer_type "SCALE_0_10" = true from by decide]
    | some v =>
        by_cases hv : 0 ≤ v ∧ v ≤ 10
        · have hs : (submit_monitoring_answer s req).2 = .success := by
            simp [submit_monitoring_answer, hb, ht, hp, hv.1, hv.2,
              show validate_answer_type "SCALE_0_10" = true from by decide]
          rw [hs]
          exact ⟨fun _ => ⟨v, rfl, hv.1, hv.2⟩, fun _ => rfl⟩
        · have hd : (decide (0 ≤ v) && decide (v ≤ 10)) = false := by
            rcases Decidable.not_and_iff_or_not.mp hv with h1 | h1 <;>
              simp [h1]
          have hs : (submit_monitoring_answer s req).2
              = .error400 "SCALE answer must be 0-10" := by
            simp [submit_monitoring_answer, hb, ht, hp, hd,
              show validate_answer_type "SCALE_0_10" = true from by decide]
          rw [hs]
          constructor
          · intro hcon
            exact SubmitResult.noConfusion hcon
          · rintro ⟨w, hw, h0, h10⟩
            injection hw with hvw
            subst hvw
            exact absurd ⟨h0, h10⟩ hv
  · intro ht
    cases hc : (["YES", "NO"] : List String).contains (pyUpper req.answer) with
    | false =>
        have hmem : pyUpper req.answer ∉ (["YES", "NO"] : List String) := by
          simpa using hc
        simp [submit_monitoring_answer, hb, ht, hc, hmem,
          show validate_answer_type "YES_NO" = true from by decide]
    | true =>
        have hmem : pyUpper req.answer ∈ (["YES", "NO"] : List String) := by
          simpa using hc
        simp [submit_monitoring_answer, hb, ht, hc, hmem,
          show validate_answer_type "YES_NO" = true from by decide]
  · intro ht
    simp [submit_monitoring_answer, hb, ht,
      show validate_answer_type "SHORT_TEXT" = true from by decide]

/-- C7, witness for the amended statement: an exact-uppercase
SCALE_0_10 answer of 7 is accepted. -/
theorem C7_answer_validation_witness :
    (submit_monitoring_answer sampleActiveSession
      { patient_id := "P1", session_id := "S1",
        question := "How severe is your headache from 0 to 10?",
        answer := "7", answer_type := "SCALE_0_10" }).2 = .success := by
  have h := (C7_answer_validation sampleActiveSession
    { patient_id := "P1", session_id := "S1",
      question := "How severe is your headache from 0 to 10?",
      answer := "7", answer_type := "SCALE_0_10" } rfl).1 rfl
  exact h.mpr ⟨7, by decide, by decide, by decide⟩

/-- C9, counterexample: a session already COMPLETE (assessment stored,
completion timestamp t1) is NOT immutable — a further assessment call
overwrites the stored assessment with a different one, replaces the
completion timestamp by t2, and appends another audit row, because the
assessment endpoint never checks the session status. -/
theorem C9_counterexample :
    sampleCompleteSession.status = "complete"
    ∧ (get_monitoring_assessment sampleCompleteSession [] (.json sampleAssessmentB) "t2").1.assessment = some sampleAssessmentB
    ∧ sampleCompleteSession.assessment = some sampleAssessment
    ∧ sampleAssessmentB ≠ sampleAssessment
    ∧ (get_monitoring_assessment sampleCompleteSession [] (.json sampleAssessmentB) "t2").1.completed_at = some "t2"
    ∧ sampleCompleteSession.completed_at = some "t1"
    ∧ (get_monitoring_assessment sampleCompleteSession [] (.json sampleAssessmentB) "t2").2.1.length = 1 := by
  refine ⟨by decide, by decide, by decide, by decide, by decide, by decide, by decide⟩

/-- C9, amended: the two question-phase operations do respect
completeness — for any session that is not active, `next_question` and
`submit_answer` return the 400 "Session is not active" response with the
session unchanged; only `get_assessment` lacks the status check and can
mutate a COMPLETE session. -/
theorem C9_complete_guards (s : MonitoringSession) (req : AnswerRequest)
    (h : s.status ≠ "active") :
    get_next_monitoring_question s = (s, .error400 "Session is not active")
    ∧ submit_monitoring_answer s req = (s, .error400 "Session is not active") := by
  have hb : (s.status != "active") = true := bne_iff_ne.mpr h
  constructor
  · simp [get_next_monitoring_question, hb]
  · simp [submit_monitoring_answer, hb]

/-- C9, witness for the amended statement: on the COMPLETE sample
session both question-phase calls reject with 400 and return the state
unchanged. -/
theorem C9_complete_guards_witness :
    get_next_monitoring_question sampleCompleteSession
      = (sampleCompleteSession, .error400 "Session is not active")
    ∧ submit_monitoring_answer sampleCompleteSession sampleScaleRequestUpper
      = (sampleCompleteSession, .error400 "Session is not active") :=
  C9_complete_guards sampleCompleteSession sampleScaleRequestUpper (by decide)

/-- C10: whenever `submit_monitoring_answer` rejects a request with a
400 response — unknown answer type, a YES_NO answer that does not
normalize to YES/NO, an out-of-range SCALE_0_10 answer, or an inactive
session — the session state is returned entirely unchanged: no response
stored, no negative response marked, no change to the asked count. -/
theorem C10_reject_leaves_state (s : MonitoringSession) (req : AnswerRequest)
    (d : String) (h : (submit_monitoring_answer s req).2 = .error400 d) :
    (submit_monitoring_answer s req).1 = s := by
  rcases submit_state_or_success s req with h1 | h1
  · exact h1
  · rw [h1] at h
    exact SubmitResult.noConfusion h

/-- C10, witness: the rejected out-of-range SCALE_0_10 answer 15 leaves
the sample session unchanged. -/
theorem C10_reject_leaves_state_witness :
    (submit_monitoring_answer sampleActiveSession sampleScaleRequestUpper).1
      = sampleActiveSession :=
  C10_reject_leaves_state sampleActiveSession sampleScaleRequestUpper
    "SCALE answer must be 0-10" (by decide)
